import Mathlib

/-!
Verification of the orchestration pipeline of
`src/software/pipeline/main_texturing.cpp` (AliceVision texturing driver).

The embedding translates the pipeline's data flow into Lean:
* C++ `double` values (3D coordinates, edge lengths, UV coordinates) are
  modelled over `Rat`;
* `std::size_t` / `int` arithmetic is modelled over `Nat` / `Int` with the
  applicable modular reductions made explicit;
* the external collaborators that `main` calls but whose implementation is
  not part of this file's slice (UV unwrapping, adaptive subdivision, atlas
  update, average edge length) are abstract function parameters, and the
  visibility remapper and view-id resolver are modelled from the spec, as
  flagged on their doc comments.
-/

namespace AVTex

/-- A 3D point (`Point3d` holds three doubles; modelled over `Rat`). -/
structure Point3d where
  x : Rat
  y : Rat
  z : Rat
deriving DecidableEq, Repr

/-- A reconstruction landmark: 3D position plus its observations.
Only the observation map's keys (view identifiers, in map iteration order)
are consumed by the pipeline (`observationPair.first` at line 201). -/
structure Landmark where
  X : Point3d
  observations : List Nat
deriving DecidableEq, Repr

/-- The reference dense point cloud (`refMesh` of lines 188-205): a
`mesh::Mesh` of which the pipeline populates `pts` and
`pointsVisibilities` only. -/
structure RefCloud where
  pts : List Point3d
  pointsVisibilities : List (List Nat)
deriving DecidableEq, Repr

/-- The textured mesh state (`mesh::Texturing` together with its owned
`mesh::Mesh`): vertex positions `pts`, triangles `tris` (vertex index
triples), UV coordinates `uvCoords` (empty means "no UVs yet"), and
per-vertex visibility sets `pointsVisibilities`. -/
structure MeshModel where
  pts : List Point3d
  tris : List (Nat × Nat × Nat)
  uvCoords : List (Rat × Rat)
  pointsVisibilities : List (List Nat)
deriving DecidableEq, Repr

/-- Modelled from the spec: `mesh::Texturing::hasUVs()` is not in this
slice; per the spec an absent/empty UV sequence means "no UVs yet". -/
def hasUVs (m : MeshModel) : Bool :=
  !(m.uvCoords.isEmpty)

/-- Resolve the view identifiers of one landmark's observation list
(the inner loop of lines 199-201, one `mp.getIndexFromViewId` call per
observation).  The resolver is modelled from the spec:
`MultiViewParams::getIndexFromViewId` is not in this slice, and per the
spec a view identifier absent from the multi-view parameter set is a
fatal `ResolutionError`, so the resolver returns `none` there and the
failure propagates; no observation is silently dropped. -/
def resolveObs (resolve : Nat → Option Nat) : List Nat → Option (List Nat)
  | [] => some []
  | v :: vs =>
    match resolve v with
    | none => none
    | some i =>
      match resolveObs resolve vs with
      | none => none
      | some is => some (i :: is)

/-- The reference point cloud build loop (lines 194-205): for each
landmark, in collection iteration order, resolve its observations into a
visibility list, append it to `refVisibilities` and append the landmark's
position to `refMesh.pts`.  A resolution failure anywhere aborts the
whole build (`none`). -/
def buildRefCloud (resolve : Nat → Option Nat) : List Landmark → Option RefCloud
  | [] => some { pts := [], pointsVisibilities := [] }
  | l :: ls =>
    match resolveObs resolve l.observations with
    | none => none
    | some vis =>
      match buildRefCloud resolve ls with
      | none => none
      | some rc => some { pts := l.X :: rc.pts, pointsVisibilities := vis :: rc.pointsVisibilities }

/-- The visibility remapping method selector
(`mesh::EVisibilityRemappingMethod`). -/
inductive RemapMethod where
  | Pull
  | Push
  | PullPush
deriving DecidableEq, Repr

/-- Squared Euclidean distance between two points. -/
def sqDist (a b : Point3d) : Rat :=
  (a.x - b.x) * (a.x - b.x) + (a.y - b.y) * (a.y - b.y) + (a.z - b.z) * (a.z - b.z)

/-- Index of the point of `pts` nearest to `p` (first index on ties;
`0` for an empty list, which the remapper never asks about). -/
def nearestIdx (p : Point3d) (pts : List Point3d) : Nat :=
  match pts.enum.foldl
      (fun best iq =>
        match best with
        | none => some (iq.1, sqDist p iq.2)
        | some bd => if sqDist p iq.2 < bd.2 then some (iq.1, sqDist p iq.2) else some bd)
      none with
  | none => 0
  | some bd => bd.1

/-- Vertex position lookup with a default, for triangle corner access. -/
def vtx (m : MeshModel) (i : Nat) : Point3d :=
  m.pts.getD i ⟨0, 0, 0⟩

/-- Distance from a point to a triangle, modelled as the least squared
distance to the triangle's three corner vertices. -/
def triDist (m : MeshModel) (p : Point3d) (t : Nat × Nat × Nat) : Rat :=
  min (sqDist p (vtx m t.1)) (min (sqDist p (vtx m t.2.1)) (sqDist p (vtx m t.2.2)))

/-- The triangle of `m` nearest to `p` (first on ties), `none` when the
mesh has no triangles. -/
def nearestTri (m : MeshModel) (p : Point3d) : Option (Nat × Nat × Nat) :=
  match m.tris.foldl
      (fun best t =>
        match best with
        | none => some (t, triDist m p t)
        | some bd => if triDist m p t < bd.2 then some (t, triDist m p t) else some bd)
      none with
  | none => none
  | some bd => some bd.1

/-- Union of two visibility lists, keeping the left operand's order and
appending the right operand's new elements. -/
def unionVis (a b : List Nat) : List Nat :=
  a ++ b.filter (fun x => !(a.contains x))

/-- Modelled from the spec: the Pull direction of the external remapper —
for each target-mesh vertex, pull the visibility set of the nearest
reference point. -/
def pullVis (ref : RefCloud) (m : MeshModel) : List (List Nat) :=
  m.pts.map (fun v => ref.pointsVisibilities.getD (nearestIdx v ref.pts) [])

/-- One Push step: union one reference point's visibility list into the
visibility sets of the three vertices of its nearest target triangle. -/
def pushOne (m : MeshModel) (acc : List (List Nat)) (p : Point3d) (vis : List Nat) :
    List (List Nat) :=
  match nearestTri m p with
  | none => acc
  | some t =>
    let s1 := acc.set t.1 (unionVis (acc.getD t.1 []) vis)
    let s2 := s1.set t.2.1 (unionVis (s1.getD t.2.1 []) vis)
    s2.set t.2.2 (unionVis (s2.getD t.2.2 []) vis)

/-- Modelled from the spec: the Push direction of the external remapper —
for each reference point, push its visibility into the nearest target
triangle's vertices, starting from all-empty per-vertex sets. -/
def pushVis (ref : RefCloud) (m : MeshModel) : List (List Nat) :=
  (ref.pts.zip ref.pointsVisibilities).foldl
    (fun acc pv => pushOne m acc pv.1 pv.2)
    (List.replicate m.pts.length [])

/-- Modelled from the spec: `mesh::Texturing::remapVisibilities` (call
sites at lines 207 and 234) is not in this slice.  Per the spec: an empty
target mesh or empty reference cloud makes the remap a no-op that yields
all-empty visibility sets; otherwise Pull / Push / PullPush (the
per-vertex union of Pull and Push) rebuild the target's per-vertex
visibility sets in place. -/
def remapVisibilities (method : RemapMethod) (ref : RefCloud) (m : MeshModel) : MeshModel :=
  if m.pts = [] ∨ ref.pts = [] then
    { m with pointsVisibilities := List.replicate m.pts.length [] }
  else
    match method with
    | RemapMethod.Pull => { m with pointsVisibilities := pullVis ref m }
    | RemapMethod.Push => { m with pointsVisibilities := pushVis ref m }
    | RemapMethod.PullPush =>
      { m with pointsVisibilities := List.zipWith unionVis (pullVis ref m) (pushVis ref m) }

/-- The `static_cast<int>` narrowing of an unsigned (`std::size_t`) value:
reduce modulo `2^32` and reinterpret as a signed 32-bit two's-complement
value. -/
def toInt32 (n : Nat) : Int :=
  let low : Nat := n % 2 ^ 32
  if low < 2 ^ 31 then (low : Int) else (low : Int) - 2 ^ 32

/-- Line 225: `static_cast<int>(mesh.mesh->pts.size() * 100)` — the
product is taken in `std::size_t` arithmetic (modulo `2^64`) and then
narrowed into `int`. -/
def subdivideMaxPtsThr (nbPts : Nat) : Int :=
  toInt32 (nbPts * 100 % 2 ^ 64)

/-- The external collaborators driven by the pipeline, abstracted as
opaque functions: `Texturing::unwrap` (line 213),
`Mesh::subdivideMeshMaxEdgeLengthUpdatePtsCams` (line 227, receiving the
edge-length threshold and the max-points threshold),
`Texturing::updateAtlases` (line 228), and
`Mesh::computeAverageEdgeLength` (line 224).  None of their
implementations are in this slice. -/
structure Collaborators where
  unwrap : MeshModel → MeshModel
  subdivide : Rat → Int → MeshModel → MeshModel
  updateAtlases : MeshModel → MeshModel
  averageEdgeLength : MeshModel → Rat

/-- One observable step of the pipeline after mesh load: a call to the
visibility remapper, the unwrapper, the subdivider, the atlas update,
the OBJ export (line 238) or texture generation (line 242). -/
inductive Event where
  | remap
  | unwrapE
  | subdivideE (q : Rat) (r : Int)
  | updateAtlasesE
  | saveOBJ
  | genTextures
deriving DecidableEq, Repr

/-- Recognizer for the remap event (used to count remapper invocations). -/
def Event.isRemap : Event → Bool
  | Event.remap => true
  | _ => false

/-- Recognizer for the subdivide event. -/
def Event.isSubdiv : Event → Bool
  | Event.subdivideE _ _ => true
  | _ => false

/-- The pipeline core after the reference cloud is built (lines 207-242):
first visibility remap, then the UV branch — unwrap when the mesh has no
UV coordinates, otherwise compute the two subdivision thresholds,
subdivide, update the atlases and remap visibilities a second time
against the same reference cloud — then OBJ export and texture
generation.  Returns the final mesh state and the ordered trace of
collaborator calls. -/
def runCore (C : Collaborators) (method : RemapMethod) (refMesh : RefCloud)
    (m0 : MeshModel) : MeshModel × List Event :=
  let m1 := remapVisibilities method refMesh m0
  if hasUVs m1 = false then
    let m2 := C.unwrap m1
    (m2, [Event.remap, Event.unwrapE, Event.saveOBJ, Event.genTextures])
  else
    let eThr := C.averageEdgeLength m1 * (1 / 10)
    let pThr := subdivideMaxPtsThr m1.pts.length
    let m2 := C.subdivide eThr pThr m1
    let m3 := C.updateAtlases m2
    let m4 := remapVisibilities method refMesh m3
    (m4,
      [Event.remap, Event.subdivideE eThr pThr, Event.updateAtlasesE, Event.remap,
        Event.saveOBJ, Event.genTextures])

/-- The whole pipeline from the landmark collection (lines 188-242):
build the reference cloud, then run the core.  A resolution failure in
the build loop aborts the run before any event — in particular before
the OBJ export, so nothing of the mesh reaches disk and the input mesh
file is untouched. -/
def runPipeline (C : Collaborators) (method : RemapMethod) (resolve : Nat → Option Nat)
    (landmarks : List Landmark) (m0 : MeshModel) : Option (MeshModel × List Event) :=
  match buildRefCloud resolve landmarks with
  | none => none
  | some refMesh => some (runCore C method refMesh m0)

/-- The option names declared in `allParams` (lines 57-119): the three
required options, the optional options, and the log option, with their
short aliases.  No help option is declared anywhere in `allParams`. -/
def declaredOptionNames : List String :=
  ["input", "i", "inputMesh", "output", "o",
   "imagesFolder", "outputTextureFileType", "textureSide", "downscale",
   "unwrapMethod", "useUDIM", "fillHoles", "padding", "flipNormals",
   "correctEV", "useScore", "processColorspace", "multiBandDownscale",
   "multiBandNbContrib", "bestScoreThreshold", "angleHardThreshold",
   "forceVisibleByAllVertices", "visibilityRemappingMethod",
   "verboseLevel", "v"]

/-- The canonical names of the three options marked `->required()`
(lines 60-66). -/
def requiredOptionNames : List String :=
  ["input", "inputMesh", "output"]

/-- Canonicalize a short alias to the long option name it stores into. -/
def canonicalName : String → String
  | "i" => "input"
  | "o" => "output"
  | "v" => "verboseLevel"
  | s => s

/-- The name `boost::program_options` stores a help flag under. -/
def helpName : String := "help"

/-- All supplied option names are declared (otherwise `po::store` at
line 125 throws `po::error`, caught at line 141). -/
abbrev allDeclared (opts : List String) : Prop :=
  ∀ o ∈ opts, o ∈ declaredOptionNames

/-- Every required option was supplied (otherwise `po::notify` at
line 133 throws `po::required_option`, caught at line 135). -/
abbrev requiredPresent (opts : List String) : Prop :=
  ∀ r ∈ requiredOptionNames, r ∈ opts.map canonicalName

/-- How a `main` run terminates: an orderly `return code`, or abnormal
termination — an exception thrown by a pipeline stage has no handler in
`main`, so it reaches `std::terminate` and never yields a return code. -/
inductive MainOutcome where
  | exit (code : Nat)
  | aborted
deriving DecidableEq, Repr

/-- One abstract invocation of the program: the option names given on the
command line (`argc == 1` iff this list is empty), whether
`sfmDataIO::Load` (line 164) succeeds, and whether every external
pipeline stage (mesh load, remap, unwrap/subdivide, export, texturing)
completes without throwing. -/
structure Invocation where
  opts : List String
  sceneLoadOk : Bool
  stageOk : Bool
deriving DecidableEq, Repr

/-- The exit behaviour of `main` (lines 121-246): `po::store` rejects
undeclared option names (exit 1); then the `vm.count("help") || argc == 1`
early return prints the options and exits 0; then `po::notify` enforces
the required options (exit 1); an unreadable SfMData scene exits 1; a
throwing pipeline stage aborts without returning; otherwise `main`
returns `EXIT_SUCCESS`. -/
def mainResult (inv : Invocation) : MainOutcome :=
  if ¬ allDeclared inv.opts then MainOutcome.exit 1
  else if helpName ∈ inv.opts ∨ inv.opts = [] then MainOutcome.exit 0
  else if ¬ requiredPresent inv.opts then MainOutcome.exit 1
  else if inv.sceneLoadOk = false then MainOutcome.exit 1
  else if inv.stageOk = false then MainOutcome.aborted
  else MainOutcome.exit 0

/-! ### Concrete instances used by witnesses and counterexamples -/

/-- Collaborators that leave the mesh unchanged and report a zero average
edge length (the degenerate zero-triangle value). -/
def idCollab : Collaborators :=
  { unwrap := fun m => m
    subdivide := fun _ _ m => m
    updateAtlases := fun m => m
    averageEdgeLength := fun _ => 0 }

/-- An empty reference cloud (zero landmarks). -/
def refEmpty : RefCloud :=
  { pts := [], pointsVisibilities := [] }

/-- A one-vertex mesh without UV coordinates. -/
def meshNoUV : MeshModel :=
  { pts := [⟨0, 0, 0⟩], tris := [], uvCoords := [], pointsVisibilities := [[]] }

/-- A one-vertex mesh that already has a UV coordinate. -/
def meshUV : MeshModel :=
  { pts := [⟨0, 0, 0⟩], tris := [], uvCoords := [(0, 0)], pointsVisibilities := [[]] }

/-- A mesh with UVs whose vertex count makes `pts.size() * 100` overflow
a signed 32-bit `int`. -/
def bigMesh : MeshModel :=
  { pts := List.replicate 21474837 ⟨0, 0, 0⟩
    tris := []
    uvCoords := [(0, 0)]
    pointsVisibilities := [] }

/-- A landmark with two resolvable observations. -/
def lmA : Landmark :=
  { X := ⟨1, 2, 3⟩, observations := [10, 11] }

/-- A landmark with an empty observation set. -/
def lmB : Landmark :=
  { X := ⟨4, 5, 6⟩, observations := [] }

/-- A landmark whose observation references an unknown view id. -/
def lmBad : Landmark :=
  { X := ⟨7, 8, 9⟩, observations := [99] }

/-- A resolver that knows the view ids below 20 only. -/
def resolveEx : Nat → Option Nat :=
  fun v => if v < 20 then some v else none

/-- The reference cloud that `buildRefCloud resolveEx [lmA, lmB]`
produces. -/
def rcEx : RefCloud :=
  { pts := [⟨1, 2, 3⟩, ⟨4, 5, 6⟩], pointsVisibilities := [[10, 11], []] }

/-- An invocation with no command-line arguments at all (`argc == 1`). -/
def noArgsInvocation : Invocation :=
  { opts := [], sceneLoadOk := true, stageOk := true }

/-- An invocation passing only the (undeclared) help flag. -/
def helpInvocation : Invocation :=
  { opts := [helpName], sceneLoadOk := true, stageOk := true }

/-- A fully successful invocation: all required options supplied, scene
readable, all stages succeed. -/
def successInvocation : Invocation :=
  { opts := ["input", "inputMesh", "output"], sceneLoadOk := true, stageOk := true }

/-- A no-argument invocation whose scene is unreadable and whose stages
would fail — none of that is reached. -/
def noArgsBadInvocation : Invocation :=
  { opts := [], sceneLoadOk := false, stageOk := false }

/-! ### Helper lemmas -/

theorem remap_pts (method : RemapMethod) (ref : RefCloud) (m : MeshModel) :
    (remapVisibilities method ref m).pts = m.pts := by
  unfold remapVisibilities
  split
  · rfl
  · cases method <;> rfl

theorem remap_uvCoords (method : RemapMethod) (ref : RefCloud) (m : MeshModel) :
    (remapVisibilities method ref m).uvCoords = m.uvCoords := by
  unfold remapVisibilities
  split
  · rfl
  · cases method <;> rfl

theorem hasUVs_remap (method : RemapMethod) (ref : RefCloud) (m : MeshModel) :
    hasUVs (remapVisibilities method ref m) = hasUVs m := by
  unfold hasUVs
  rw [remap_uvCoords]

theorem hasUVs_false_iff (m : MeshModel) : hasUVs m = false ↔ m.uvCoords = [] := by
  unfold hasUVs
  cases h : m.uvCoords <;> simp

theorem pullVis_length (ref : RefCloud) (m : MeshModel) :
    (pullVis ref m).length = m.pts.length := by
  unfold pullVis
  exact List.length_map _ _

theorem pushOne_length (m : MeshModel) (acc : List (List Nat)) (p : Point3d)
    (vis : List Nat) : (pushOne m acc p vis).length = acc.length := by
  unfold pushOne
  cases nearestTri m p <;> simp

theorem pushFold_length (m : MeshModel) (l : List (Point3d × List Nat))
    (acc : List (List Nat)) :
    (l.foldl (fun acc pv => pushOne m acc pv.1 pv.2) acc).length = acc.length := by
  induction l generalizing acc with
  | nil => rfl
  | cons hd tl ih => rw [List.foldl_cons, ih, pushOne_length]

theorem pushVis_length (ref : RefCloud) (m : MeshModel) :
    (pushVis ref m).length = m.pts.length := by
  unfold pushVis
  rw [pushFold_length, List.length_replicate]

theorem resolveObs_eq_none (resolve : Nat → Option Nat) (obs : List Nat) (v : Nat)
    (hv : v ∈ obs) (h : resolve v = none) : resolveObs resolve obs = none := by
  induction obs with
  | nil => cases hv
  | cons a as ih =>
    rcases List.mem_cons.mp hv with rfl | hmem
    · simp [resolveObs, h]
    · cases ha : resolve a <;> simp [resolveObs, ha, ih hmem]

theorem buildRefCloud_eq_none (resolve : Nat → Option Nat) (landmarks : List Landmark)
    (l : Landmark) (hl : l ∈ landmarks)
    (h : resolveObs resolve l.observations = none) :
    buildRefCloud resolve landmarks = none := by
  induction landmarks with
  | nil => cases hl
  | cons a as ih =>
    rcases List.mem_cons.mp hl with rfl | hmem
    · simp [buildRefCloud, h]
    · cases ha : resolveObs resolve a.observations
      · simp [buildRefCloud, ha]
      · simp [buildRefCloud, ha, ih hmem]

theorem runCore_cond (method : RemapMethod) (ref : RefCloud) (m0 : MeshModel) :
    (hasUVs (remapVisibilities method ref m0) = false) ↔ m0.uvCoords = [] := by
  rw [hasUVs_remap, hasUVs_false_iff]

theorem subdivideMaxPtsThr_eq_of_small (n : Nat) (h : n * 100 < 2 ^ 31) :
    subdivideMaxPtsThr n = (n : Int) * 100 := by
  unfold subdivideMaxPtsThr toInt32
  have h64 : n * 100 % 2 ^ 64 = n * 100 :=
    Nat.mod_eq_of_lt (lt_trans h (by norm_num))
  simp only [h64]
  have h32 : n * 100 % 2 ^ 32 = n * 100 :=
    Nat.mod_eq_of_lt (lt_trans h (by norm_num))
  simp only [h32]
  rw [if_pos h]
  push_cast
  ring

theorem help_not_declared : helpName ∉ declaredOptionNames := by decide

theorem allDeclared_no_help {opts : List String} (h : allDeclared opts) :
    helpName ∉ opts :=
  fun hmem => help_not_declared (h _ hmem)

/-! ### Claim theorems -/

/-- C4: after every invocation of the visibility remap driver the target
mesh has exactly one visibility set per vertex, for all methods, meshes
and reference clouds; when the mesh or the reference cloud is empty the
result is all-empty visibility sets, not a length mismatch or an
error. -/
theorem remapVisibilities_invariant (method : RemapMethod) (ref : RefCloud) (m : MeshModel) :
    ((remapVisibilities method ref m).pointsVisibilities).length
        = ((remapVisibilities method ref m).pts).length ∧
      ((m.pts = [] ∨ ref.pts = []) →
        ∀ s ∈ (remapVisibilities method ref m).pointsVisibilities, s = []) := by
  constructor
  · rw [remap_pts]
    unfold remapVisibilities
    split
    · simp
    · cases method
      · simpa using pullVis_length ref m
      · simpa using pushVis_length ref m
      · simp [List.length_zipWith, pullVis_length, pushVis_length]
  · intro h s hs
    unfold remapVisibilities at hs
    rw [if_pos h] at hs
    simp only [List.mem_replicate] at hs
    exact hs.2

/-- Witness for C4 at a concrete input: a one-vertex mesh against an
empty reference cloud keeps one visibility set and that set is empty. -/
theorem remapVisibilities_invariant_witness :
    ((remapVisibilities RemapMethod.Pull refEmpty meshNoUV).pointsVisibilities).length
        = ((remapVisibilities RemapMethod.Pull refEmpty meshNoUV).pts).length ∧
      ((meshNoUV.pts = [] ∨ refEmpty.pts = []) →
        ∀ s ∈ (remapVisibilities RemapMethod.Pull refEmpty meshNoUV).pointsVisibilities,
          s = []) :=
  remapVisibilities_invariant RemapMethod.Pull refEmpty meshNoUV

/-- C2: whenever the reference-cloud build loop completes on a landmark
collection of size `N`, it yields exactly `N` points and exactly `N`
visibility lists, both in the landmark collection's iteration order, and
the `k`-th visibility list is exactly the resolution of the `k`-th
landmark's observations — so a landmark with an empty observation set
contributes an empty visibility list rather than being skipped. -/
theorem buildRefCloud_exact (resolve : Nat → Option Nat) (landmarks : List Landmark)
    (rc : RefCloud) (h : buildRefCloud resolve landmarks = some rc) :
    rc.pts.length = landmarks.length ∧
      rc.pointsVisibilities.length = landmarks.length ∧
      rc.pts = landmarks.map (fun l => l.X) ∧
      landmarks.mapM (fun l => resolveObs resolve l.observations)
          = some rc.pointsVisibilities := by
  induction landmarks generalizing rc with
  | nil =>
    simp only [buildRefCloud, Option.some.injEq] at h
    subst h
    exact ⟨rfl, rfl, rfl, rfl⟩
  | cons l ls ih =>
    cases hre : resolveObs resolve l.observations with
    | none => simp [buildRefCloud, hre] at h
    | some vis =>
      cases hb : buildRefCloud resolve ls with
      | none => simp [buildRefCloud, hre, hb] at h
      | some rc' =>
        simp only [buildRefCloud, hre, hb, Option.some.injEq] at h
        subst h
        obtain ⟨h1, h2, h3, h4⟩ := ih rc' hb
        refine ⟨?_, ?_, ?_, ?_⟩
        · simpa using h1
        · simpa using h2
        · simpa using h3
        · rw [List.mapM_cons, hre, h4]
          rfl

/-- Witness for C2 at a concrete input: two landmarks, the second with an
empty observation set, yield two points and two visibility lists in
order, the second visibility list empty. -/
theorem buildRefCloud_exact_witness :
    rcEx.pts.length = ([lmA, lmB] : List Landmark).length ∧
      rcEx.pointsVisibilities.length = ([lmA, lmB] : List Landmark).length ∧
      rcEx.pts = ([lmA, lmB] : List Landmark).map (fun l => l.X) ∧
      ([lmA, lmB] : List Landmark).mapM (fun l => resolveObs resolveEx l.observations)
          = some rcEx.pointsVisibilities :=
  buildRefCloud_exact resolveEx [lmA, lmB] rcEx (by decide)

/-- C7: if any landmark observation references a view identifier that the
multi-view parameter set cannot resolve, the reference-cloud build fails
fatally (the observation is not silently dropped) and the whole pipeline
run aborts yielding no trace at all — in particular no OBJ export ever
happens, so no mesh mutation reaches disk and the input mesh file is
unchanged. -/
theorem pipeline_aborts_on_resolution_failure (C : Collaborators) (method : RemapMethod)
    (resolve : Nat → Option Nat) (landmarks : List Landmark) (m0 : MeshModel)
    (l : Landmark) (v : Nat) (hl : l ∈ landmarks) (hv : v ∈ l.observations)
    (h : resolve v = none) :
    runPipeline C method resolve landmarks m0 = none := by
  have hobs : resolveObs resolve l.observations = none :=
    resolveObs_eq_none resolve l.observations v hv h
  have hb : buildRefCloud resolve landmarks = none :=
    buildRefCloud_eq_none resolve landmarks l hl hobs
  simp [runPipeline, hb]

/-- Witness for C7 at a concrete input: a run whose second landmark
references the unknown view id 99 aborts. -/
theorem pipeline_aborts_witness :
    runPipeline idCollab RemapMethod.Pull resolveEx [lmA, lmBad] meshNoUV = none :=
  pipeline_aborts_on_resolution_failure idCollab RemapMethod.Pull resolveEx [lmA, lmBad]
    meshNoUV lmBad 99 (by simp [lmA, lmBad]) (by simp [lmBad]) (by decide)

/-- C1: the choice between unwrapping and subdivision is a pure function
of the UV state checked once after the first visibility remap (which
preserves the UV coordinates): a mesh without UV coordinates takes
exactly the unwrap branch and never subdivides, a mesh with UV
coordinates takes exactly the subdivision branch and never unwraps in
the same run — in particular the decision is not re-evaluated after
subdivision. -/
theorem branch_decision (C : Collaborators) (method : RemapMethod) (ref : RefCloud)
    (m0 : MeshModel) :
    ((m0.uvCoords = []) →
        Event.unwrapE ∈ (runCore C method ref m0).2 ∧
          ∀ q r, Event.subdivideE q r ∉ (runCore C method ref m0).2) ∧
      ((m0.uvCoords ≠ []) →
        (∃ q r, Event.subdivideE q r ∈ (runCore C method ref m0).2) ∧
          Event.unwrapE ∉ (runCore C method ref m0).2) := by
  constructor
  · intro h
    simp only [runCore]
    rw [if_pos ((runCore_cond method ref m0).mpr h)]
    exact ⟨by simp, fun q r => by simp⟩
  · intro h
    simp only [runCore]
    rw [if_neg (fun hc => h ((runCore_cond method ref m0).mp hc))]
    exact ⟨⟨_, _, List.mem_cons_of_mem _ (List.mem_cons_self _ _)⟩, by simp⟩

/-- Witness for C1 at concrete inputs: a mesh without UVs unwraps and
never subdivides; a mesh with UVs subdivides and never unwraps. -/
theorem branch_decision_witness :
    (Event.unwrapE ∈ (runCore idCollab RemapMethod.Pull refEmpty meshNoUV).2 ∧
        ∀ q r, Event.subdivideE q r ∉ (runCore idCollab RemapMethod.Pull refEmpty meshNoUV).2) ∧
      ((∃ q r, Event.subdivideE q r ∈ (runCore idCollab RemapMethod.Pull refEmpty meshUV).2) ∧
        Event.unwrapE ∉ (runCore idCollab RemapMethod.Pull refEmpty meshUV).2) :=
  ⟨(branch_decision idCollab RemapMethod.Pull refEmpty meshNoUV).1 rfl,
    (branch_decision idCollab RemapMethod.Pull refEmpty meshUV).2 (by simp [meshUV])⟩

/-- C5: the visibility remap driver is invoked exactly twice in a run
whose mesh already has UVs (once before the branch, once after
subdivision) and exactly once in a run whose mesh has none. -/
theorem remap_call_count (C : Collaborators) (method : RemapMethod) (ref : RefCloud)
    (m0 : MeshModel) :
    ((m0.uvCoords ≠ []) →
        (runCore C method ref m0).2.countP Event.isRemap = 2) ∧
      ((m0.uvCoords = []) →
        (runCore C method ref m0).2.countP Event.isRemap = 1) := by
  constructor
  · intro h
    simp only [runCore]
    rw [if_neg (fun hc => h ((runCore_cond method ref m0).mp hc))]
    simp [List.countP_cons, Event.isRemap]
  · intro h
    simp only [runCore]
    rw [if_pos ((runCore_cond method ref m0).mpr h)]
    simp [List.countP_cons, Event.isRemap]

/-- Witness for C5 at concrete inputs: two remaps with UVs present, one
remap without. -/
theorem remap_call_count_witness :
    (runCore idCollab RemapMethod.Pull refEmpty meshUV).2.countP Event.isRemap = 2 ∧
      (runCore idCollab RemapMethod.Pull refEmpty meshNoUV).2.countP Event.isRemap = 1 :=
  ⟨(remap_call_count idCollab RemapMethod.Pull refEmpty meshUV).1 (by simp [meshUV]),
    (remap_call_count idCollab RemapMethod.Pull refEmpty meshNoUV).2 rfl⟩

/-- Counterexample to C3 as stated: at a concrete run of the subdivision
branch, the event right after the subdivider call (trace index 1) is the
atlas recomputation (index 2), and the second visibility remap only
comes after it (index 3) — not the claimed remap-then-atlas order. -/
theorem subdivision_order_cex :
    ((runCore idCollab RemapMethod.Pull refEmpty meshUV).2)[1]?.map Event.isSubdiv
        = some true ∧
      ((runCore idCollab RemapMethod.Pull refEmpty meshUV).2)[2]?
          = some Event.updateAtlasesE ∧
      ((runCore idCollab RemapMethod.Pull refEmpty meshUV).2)[3]? = some Event.remap := by
  have h : meshUV.uvCoords ≠ [] := by simp [meshUV]
  refine ⟨?_, ?_, ?_⟩ <;>
    · simp only [runCore]
      rw [if_neg (fun hc => h ((runCore_cond RemapMethod.Pull refEmpty meshUV).mp hc))]
      simp [Event.isSubdiv]

/-- C3 as amended: in the subdivision branch the steps after the
subdivider are, in order, the atlas-layout recomputation and then the
second visibility remap, and that remap runs against the same reference
cloud (built once from the landmarks and never modified) as the first
remap. -/
theorem subdivision_steps_order (C : Collaborators) (method : RemapMethod) (ref : RefCloud)
    (m0 : MeshModel) (h : m0.uvCoords ≠ []) :
    ∃ q r,
      (runCore C method ref m0).2 =
          [Event.remap, Event.subdivideE q r, Event.updateAtlasesE, Event.remap,
            Event.saveOBJ, Event.genTextures] ∧
        (runCore C method ref m0).1 =
          remapVisibilities method ref
            (C.updateAtlases (C.subdivide q r (remapVisibilities method ref m0))) := by
  refine ⟨C.averageEdgeLength (remapVisibilities method ref m0) * (1 / 10),
    subdivideMaxPtsThr (remapVisibilities method ref m0).pts.length, ?_, ?_⟩ <;>
    · simp only [runCore]
      rw [if_neg (fun hc => h ((runCore_cond method ref m0).mp hc))]

/-- Witness for the amended C3 at a concrete input. -/
theorem subdivision_steps_order_witness :
    ∃ q r,
      (runCore idCollab RemapMethod.Pull refEmpty meshUV).2 =
          [Event.remap, Event.subdivideE q r, Event.updateAtlasesE, Event.remap,
            Event.saveOBJ, Event.genTextures] ∧
        (runCore idCollab RemapMethod.Pull refEmpty meshUV).1 =
          remapVisibilities RemapMethod.Pull refEmpty
            (idCollab.updateAtlases
              (idCollab.subdivide q r
                (remapVisibilities RemapMethod.Pull refEmpty meshUV))) :=
  subdivision_steps_order idCollab RemapMethod.Pull refEmpty meshUV (by simp [meshUV])

/-- Counterexample to C6 as stated: on a mesh of 21474837 vertices (whose
visibility remap preserves the vertex count) the subdivider receives the
maximum-points threshold -2147483596, not 21474837 * 100 = 2147483700 —
the `static_cast<int>` narrowing of `pts.size() * 100` wrapped into a
negative value. -/
theorem subdivision_thresholds_cex :
    bigMesh.pts.length = 21474837 ∧
      ((runCore idCollab RemapMethod.Pull refEmpty bigMesh).2)[1]? =
        some (Event.subdivideE 0 (-2147483596)) ∧
      ((-2147483596 : Int) ≠ (21474837 : Int) * 100) := by
  have hlen : bigMesh.pts.length = 21474837 := by
    show (List.replicate 21474837 (⟨0, 0, 0⟩ : Point3d)).length = 21474837
    rw [List.length_replicate]
  have h : bigMesh.uvCoords ≠ [] := by
    show ((0, 0) :: []) ≠ ([] : List (Rat × Rat))
    exact List.cons_ne_nil _ _
  refine ⟨hlen, ?_, by norm_num⟩
  simp only [runCore]
  rw [if_neg (fun hc => h ((runCore_cond RemapMethod.Pull refEmpty bigMesh).mp hc))]
  simp only [List.getElem?_cons_succ, List.getElem?_cons_zero, remap_pts, hlen,
    Option.some.injEq]
  have hthr : subdivideMaxPtsThr 21474837 = -2147483596 := by
    simp only [subdivideMaxPtsThr, toInt32]
    norm_num
  rw [hthr]
  norm_num [idCollab]

/-- C6 as amended: in the subdivision branch the edge-length threshold
passed to the subdivider equals the mesh's average edge length times
1/10, and the maximum-points threshold is `static_cast<int>` of the
branch-entry vertex count times 100, which equals the vertex count times
100 exactly whenever that product fits in a signed 32-bit `int`
(is below 2^31). -/
theorem subdivision_thresholds (C : Collaborators) (method : RemapMethod) (ref : RefCloud)
    (m0 : MeshModel) (h : m0.uvCoords ≠ []) :
    ((runCore C method ref m0).2)[1]? =
        some (Event.subdivideE
          (C.averageEdgeLength (remapVisibilities method ref m0) * (1 / 10))
          (subdivideMaxPtsThr m0.pts.length)) ∧
      (m0.pts.length * 100 < 2 ^ 31 →
        subdivideMaxPtsThr m0.pts.length = (m0.pts.length : Int) * 100) := by
  constructor
  · simp only [runCore]
    rw [if_neg (fun hc => h ((runCore_cond method ref m0).mp hc))]
    simp [remap_pts]
  · intro hsmall
    exact subdivideMaxPtsThr_eq_of_small _ hsmall

/-- Witness for the amended C6: on a one-vertex mesh with UVs the
subdivider receives avg * 1/10 and exactly 100 points of budget. -/
theorem subdivision_thresholds_witness :
    ((runCore idCollab RemapMethod.Pull refEmpty meshUV).2)[1]? =
        some (Event.subdivideE
          (idCollab.averageEdgeLength (remapVisibilities RemapMethod.Pull refEmpty meshUV)
            * (1 / 10))
          (subdivideMaxPtsThr meshUV.pts.length)) ∧
      subdivideMaxPtsThr meshUV.pts.length = (meshUV.pts.length : Int) * 100 :=
  ⟨(subdivision_thresholds idCollab RemapMethod.Pull refEmpty meshUV (by simp [meshUV])).1,
    (subdivision_thresholds idCollab RemapMethod.Pull refEmpty meshUV (by simp [meshUV])).2
      (by norm_num [meshUV])⟩

/-- C10: the maximum-points budget `static_cast<int>(pts.size() * 100)`
equals 100 times the vertex count exactly when the vertex count is at
most 21474836 (so the product fits a signed 32-bit `int`); in general it
only agrees with the product modulo 2^32, and at 21474837 vertices it is
negative. -/
theorem subdivideMaxPtsThr_cast :
    (∀ n : Nat, subdivideMaxPtsThr n = (n : Int) * 100 ↔ n ≤ 21474836) ∧
      (∀ n : Nat, subdivideMaxPtsThr n % 2 ^ 32 = ((n : Int) * 100) % 2 ^ 32) ∧
      subdivideMaxPtsThr 21474837 < 0 := by
  have hub : ∀ n : Nat, subdivideMaxPtsThr n < 2 ^ 31 := by
    intro n
    simp only [subdivideMaxPtsThr, toInt32]
    split
    next hlt => exact_mod_cast hlt
    next hge =>
      have hl32 : n * 100 % 2 ^ 64 % 2 ^ 32 < 2 ^ 32 := Nat.mod_lt _ (by norm_num)
      omega
  refine ⟨?_, ?_, ?_⟩
  · intro n
    constructor
    · intro heq
      by_contra hgt
      push_neg at hgt
      have hbig : 2 ^ 31 ≤ n * 100 := by omega
      have : ((n : Int) * 100) < 2 ^ 31 := heq ▸ hub n
      have : (2 ^ 31 : Int) ≤ (n : Int) * 100 := by exact_mod_cast hbig
      omega
    · intro hle
      exact subdivideMaxPtsThr_eq_of_small n (by omega)
  · intro n
    simp only [subdivideMaxPtsThr, toInt32]
    have hmm : n * 100 % 2 ^ 64 % 2 ^ 32 = n * 100 % 2 ^ 32 :=
      Nat.mod_mod_of_dvd _ (by norm_num)
    simp only [hmm]
    have hcast : ((n * 100 % 2 ^ 32 : Nat) : Int) = ((n : Int) * 100) % 2 ^ 32 := by
      push_cast
      rfl
    split
    · rw [hcast, Int.emod_emod_of_dvd _ dvd_rfl]
    · rw [Int.emod_sub_cancel, hcast, Int.emod_emod_of_dvd _ dvd_rfl]
  · simp only [subdivideMaxPtsThr, toInt32]
    norm_num

/-- Witness for C10: a small vertex count gets the exact budget. -/
theorem subdivideMaxPtsThr_cast_witness :
    subdivideMaxPtsThr 12345 = (12345 : Int) * 100 :=
  (subdivideMaxPtsThr_cast.1 12345).mpr (by norm_num)

/-- Counterexample to C8 as stated: invoking the program with no
arguments at all leaves every required option missing, yet the process
exits 0 (the `argc == 1` early return), not 1 as the claim requires for
any missing required option. -/
theorem exit_code_cex :
    mainResult noArgsInvocation = MainOutcome.exit 0 ∧
      ¬ requiredPresent noArgsInvocation.opts := by
  constructor
  · decide
  · decide

/-- C8 as amended: the process exits 0 exactly on a fully successful run
or on a no-argument invocation; it exits 1 on any parse error
(undeclared option name), on missing required options when at least one
argument was given, and on an unreadable scene file; an unhandled
pipeline-stage failure terminates the process abnormally without
returning an exit code from `main` (there is no surrounding handler), so
it does not produce exit code 1. -/
theorem exit_code_behavior :
    (∀ inv : Invocation,
        mainResult inv = MainOutcome.exit 0 ↔
          (inv.opts = [] ∨
            (allDeclared inv.opts ∧ requiredPresent inv.opts ∧
              inv.sceneLoadOk = true ∧ inv.stageOk = true))) ∧
      (∀ inv : Invocation, ¬ allDeclared inv.opts →
        mainResult inv = MainOutcome.exit 1) ∧
      (∀ inv : Invocation, inv.opts ≠ [] → allDeclared inv.opts →
        ¬ requiredPresent inv.opts → mainResult inv = MainOutcome.exit 1) ∧
      (∀ inv : Invocation, inv.opts ≠ [] → allDeclared inv.opts →
        requiredPresent inv.opts → inv.sceneLoadOk = false →
        mainResult inv = MainOutcome.exit 1) ∧
      (∀ inv : Invocation, inv.opts ≠ [] → allDeclared inv.opts →
        requiredPresent inv.opts → inv.sceneLoadOk = true → inv.stageOk = false →
        mainResult inv = MainOutcome.aborted) := by
  refine ⟨?_, ?_, ?_, ?_, ?_⟩
  · intro inv
    by_cases hdecl : allDeclared inv.opts
    · by_cases hempty : inv.opts = []
      · unfold mainResult
        rw [if_neg (not_not_intro hdecl), if_pos (Or.inr hempty)]
        simp [hempty]
      · by_cases hreq : requiredPresent inv.opts
        · unfold mainResult
          rw [if_neg (not_not_intro hdecl),
            if_neg (fun hor => hor.elim (allDeclared_no_help hdecl) hempty),
            if_neg (not_not_intro hreq)]
          cases hscene : inv.sceneLoadOk
          · simp [hempty, hdecl, hreq]
          · cases hstage : inv.stageOk
            · simp [hempty, hdecl, hreq]
            · simp only [hempty, hscene, hstage, if_neg, reduceIte]
              simp only [Bool.true_eq_false, if_false]
              constructor
              · intro _
                exact Or.inr ⟨hdecl, hreq, trivial, trivial⟩
              · intro _
                trivial
        · unfold mainResult
          rw [if_neg (not_not_intro hdecl),
            if_neg (fun hor => hor.elim (allDeclared_no_help hdecl) hempty),
            if_pos hreq]
          simp [hempty, hreq]
    · have hne : inv.opts ≠ [] := by
        intro he
        refine hdecl ?_
        rw [he]
        intro o ho
        exact absurd ho (List.not_mem_nil o)
      unfold mainResult
      rw [if_pos hdecl]
      simp [hdecl, hne]
  · intro inv hdecl
    unfold mainResult
    rw [if_pos hdecl]
  · intro inv hne hdecl hreq
    unfold mainResult
    rw [if_neg (not_not_intro hdecl),
      if_neg (fun hor => hor.elim (allDeclared_no_help hdecl) hne), if_pos hreq]
  · intro inv hne hdecl hreq hscene
    unfold mainResult
    rw [if_neg (not_not_intro hdecl),
      if_neg (fun hor => hor.elim (allDeclared_no_help hdecl) hne),
      if_neg (not_not_intro hreq), if_pos hscene]
  · intro inv hne hdecl hreq hscene hstage
    unfold mainResult
    rw [if_neg (not_not_intro hdecl),
      if_neg (fun hor => hor.elim (allDeclared_no_help hdecl) hne),
      if_neg (not_not_intro hreq), if_neg (by rw [hscene]; exact fun hc => by cases hc),
      if_pos hstage]

/-- Witness for the amended C8: a run supplying the three required
options with a readable scene and successful stages exits 0. -/
theorem exit_code_witness :
    mainResult successInvocation = MainOutcome.exit 0 :=
  (exit_code_behavior.1 successInvocation).mpr (Or.inr ⟨by decide, by decide, rfl, rfl⟩)

/-- Counterexample to C9 as stated: the help flag is not among the
declared options, so invoking with `--help` makes `po::store` throw an
unknown-option error and the process exits 1, not 0 as claimed. -/
theorem help_flag_cex :
    mainResult helpInvocation = MainOutcome.exit 1 ∧
      ¬ mainResult helpInvocation = MainOutcome.exit 0 := by
  constructor
  · decide
  · decide

/-- C9 as amended: a no-argument invocation (`argc == 1`) prints the
options and returns 0 before required-option validation and before any
pipeline stage; but no help option is ever declared, so
`vm.count("help")` cannot trigger the early return and passing the help
flag is an unknown-option parse error that exits 1. -/
theorem early_return_behavior :
    (∀ inv : Invocation, inv.opts = [] → mainResult inv = MainOutcome.exit 0) ∧
      (∀ inv : Invocation, helpName ∈ inv.opts → mainResult inv = MainOutcome.exit 1) := by
  constructor
  · intro inv he
    have hdecl : allDeclared inv.opts := by
      rw [he]
      intro o ho
      exact absurd ho (List.not_mem_nil o)
    unfold mainResult
    rw [if_neg (not_not_intro hdecl), if_pos (Or.inr he)]
  · intro inv hh
    have hdecl : ¬ allDeclared inv.opts := fun hd => help_not_declared (hd _ hh)
    unfold mainResult
    rw [if_pos hdecl]

/-- Witness for the amended C9: a no-argument run with an unreadable
scene and failing stages still exits 0 — nothing after the early return
is consulted. -/
theorem early_return_witness :
    mainResult noArgsBadInvocation = MainOutcome.exit 0 :=
  early_return_behavior.1 noArgsBadInvocation rfl

end AVTex
